import Mathlib

/-!
# Verification of `aklinkert/go-httputils`

A shallow embedding of three concerns of the repository:

* the health responder `OkHandler` (src/ok.go, `ServeHTTP`),
* the latency recorder `Timer` (src/unnamed/part_000, `Timer.ServeHTTP`),
* the lifecycle coordinator `Handler` with its registration API and the
  `Serve` lifecycle (src/ok.go).

Per-request execution is modelled as explicit state passing over an
`ExecState` (response writer, histogram observations, log lines, and an
event trace recording execution order).  A Go panic is modelled by the
`HOutcome.panicked` result, which propagates outward exactly as an
unrecovered panic does.  Durations are natural numbers of nanoseconds.
-/

namespace GoHttputils

/-- One second in nanoseconds (the Go `time.Second`). -/
def timeSecond : Nat := 1000000000

/-- The Go `error` values relevant to this code: `http.ErrServerClosed`,
`context.DeadlineExceeded`, and arbitrary other errors. -/
inductive GoError where
  | errServerClosed
  | deadlineExceeded
  | other (msg : String)
deriving DecidableEq, Repr

/-- The `Error()` string of a modelled Go error. -/
def GoError.message : GoError → String
  | .errServerClosed => "http: Server closed"
  | .deadlineExceeded => "context deadline exceeded"
  | .other m => m

/-- A `mux.Route` as far as `Timer.ServeHTTP` consumes it: it either carries a
path template or it does not (a route registered without a path). -/
structure Route where
  pathTemplate : Option String
deriving DecidableEq, Repr

/-- Model of `mux.Route.GetPathTemplate`: returns the template, or an error when the
route has no path. -/
def Route.getPathTemplate (r : Route) : Except String String :=
  match r.pathTemplate with
  | none => Except.error "mux: route doesn\x27t have a path"
  | some t => Except.ok t

/-- An `*http.Request` as far as this code consumes it: method, URL path, and
the mux routing context.  `currentRoute = none` models a request that was not
dispatched through a matched mux route, so that `mux.CurrentRoute` returns a
nil `*mux.Route`. -/
structure Request where
  method : String
  path : String
  currentRoute : Option Route
deriving DecidableEq, Repr

/-- An `http.ResponseWriter`: status header (set implicitly on first write),
accumulated body, and the pending write error of the underlying connection
(`none` means writes succeed). -/
structure ResponseWriter where
  status : Option Nat
  body : String
  failWrite : Option String
deriving DecidableEq, Repr

/-- Writing a header: the first `WriteHeader` wins, later ones are ignored. -/
def ResponseWriter.writeHeader (rw : ResponseWriter) (code : Nat) : ResponseWriter :=
  { rw with status := some (rw.status.getD code) }

/-- Model of `fmt.Fprintf(rw, "ok")`: on success the status defaults to 200 and the
body is appended; on a connection error the writer is unchanged and the
error is returned. -/
def fprintfOk (rw : ResponseWriter) : ResponseWriter × Option String :=
  match rw.failWrite with
  | some e => (rw, some e)
  | none => ({ rw with status := some (rw.status.getD 200), body := rw.body ++ "ok" }, none)

/-- Log severities that appear in this code. -/
inductive LogLevel where
  | debug
  | errorLog
deriving DecidableEq, Repr

/-- Execution-order events recorded by the per-request model: entering the
panic-recovery wrapper, recovering a panic, starting/observing the latency
timer, and steps of the body of a user handler. -/
inductive Event where
  | recoveryEnter
  | recovered (msg : String)
  | timerStart (label : String)
  | timerObserve (label : String)
  | userStep (n : Nat)
deriving DecidableEq, Repr

/-- The observable per-request state: the response writer, the process-wide
`http_duration_seconds` histogram (as the list of observed labels, in order),
the log lines, and the execution trace. -/
structure ExecState where
  rw : ResponseWriter
  histogram : List String
  logs : List (LogLevel × String)
  trace : List Event
deriving DecidableEq, Repr

/-- A fresh response writer on a healthy connection. -/
def newResponseWriter : ResponseWriter :=
  { status := none, body := "", failWrite := none }

/-- A fresh execution state. -/
def initState : ExecState :=
  { rw := newResponseWriter, histogram := [], logs := [], trace := [] }

/-- Append events to the execution trace. -/
def ExecState.addTrace (s : ExecState) (es : List Event) : ExecState :=
  { s with trace := s.trace ++ es }

/-- Append a log line. -/
def ExecState.addLog (s : ExecState) (lvl : LogLevel) (msg : String) : ExecState :=
  { s with logs := s.logs ++ [(lvl, msg)] }

/-- Record one histogram observation under `label` (and trace it). -/
def ExecState.observe (s : ExecState) (label : String) : ExecState :=
  { s with histogram := s.histogram ++ [label], trace := s.trace ++ [Event.timerObserve label] }

/-- Replace the response writer. -/
def ExecState.setRw (s : ExecState) (rw : ResponseWriter) : ExecState :=
  { s with rw := rw }

/-- The result of running a handler: normal return, or a propagating panic. -/
inductive HOutcome where
  | ok
  | panicked (msg : String)
deriving DecidableEq, Repr

/-- The Go runtime message for dereferencing a nil pointer, which is what
calling `GetPathTemplate` on the nil `*mux.Route` produces. -/
def nilRoutePanicMsg : String :=
  "runtime error: invalid memory address or nil pointer dereference"

/-- The label `Timer.ServeHTTP` passes to `WithLabelValues`:
`path, _ := route.GetPathTemplate()` discards the error, leaving the zero
value `""` when the template is not resolvable. -/
def pathLabel (route : Route) : String :=
  match route.getPathTemplate with
  | Except.ok t => t
  | Except.error _ => ""

/-- The `http.Handler` values this repository ever runs:
* `okH` — the `OkHandler` health responder;
* `timer inner` — a `Timer` latency recorder wrapping `inner`;
* `user steps panics` — an arbitrary user-supplied handler, modelled by the
  trace steps its body emits and whether it then panics. -/
inductive HttpHandler where
  | okH
  | timer (inner : HttpHandler)
  | user (steps : List Nat) (panics : Option String)
deriving DecidableEq, Repr

/-- The `ServeHTTP` of the modelled handlers.

* `okH` is `OkHandler.ServeHTTP` (src/ok.go lines 25-29): write `"ok"`; on a
  write error, log it at debug severity; return normally in every case.
* `timer inner` is `Timer.ServeHTTP` (src/unnamed/part_000 lines 36-44):
  `route := mux.CurrentRoute(r)` — nil when the request carries no matched
  route, so the following `route.GetPathTemplate()` panics with a nil-pointer
  dereference; otherwise the template-lookup error is discarded (empty label),
  the timer starts, the inner handler runs, and only after a normal return is
  the duration observed into the histogram.  A panic of the inner handler
  propagates and skips the observation.
* `user steps panics` emits its steps and then returns or panics. -/
def HttpHandler.serveHTTP : HttpHandler → Request → ExecState → ExecState × HOutcome
  | .okH, _, s =>
      match fprintfOk s.rw with
      | (rw, none) => (s.setRw rw, HOutcome.ok)
      | (rw, some e) =>
          ((s.setRw rw).addLog LogLevel.debug ("failed to write ok response: " ++ e), HOutcome.ok)
  | .timer inner, r, s =>
      match r.currentRoute with
      | none => (s, HOutcome.panicked nilRoutePanicMsg)
      | some route =>
          let label := pathLabel route
          match inner.serveHTTP r (s.addTrace [Event.timerStart label]) with
          | (s2, HOutcome.ok) => (s2.observe label, HOutcome.ok)
          | (s2, HOutcome.panicked m) => (s2, HOutcome.panicked m)
  | .user steps panics, _, s =>
      match panics with
      | none => (s.addTrace (steps.map Event.userStep), HOutcome.ok)
      | some m => (s.addTrace (steps.map Event.userStep), HOutcome.panicked m)

/-- How a registered route matches a request path: `mux.Router.Handle` gives
an exact path match, `mux.Router.PathPrefix(...).Handler` matches the path
and everything beneath it. -/
inductive MatchMode where
  | exact
  | pathStart
deriving DecidableEq, Repr

/-- One route registered on the mux router; doubles as the `*mux.Route`
handle that the registration methods return. -/
structure Registration where
  pattern : String
  mode : MatchMode
  handler : HttpHandler
deriving DecidableEq, Repr

/-- Whether a registration matches a request path. -/
def Registration.matchesPath (reg : Registration) (path : String) : Bool :=
  match reg.mode with
  | MatchMode.exact => reg.pattern == path
  | MatchMode.pathStart => path.startsWith reg.pattern

/-- First registration matching the path, in registration order
(mux tries routes in the order they were added). -/
def findMatch : List Registration → String → Option Registration
  | [], _ => none
  | reg :: rest, path =>
      if reg.matchesPath path then some reg else findMatch rest path

/-- Model of `mux.Router.ServeHTTP`: find the matching route, store it in the request
context (so `mux.CurrentRoute` resolves it), and delegate to its handler;
with no match, answer 404. -/
def muxServeHTTP (routes : List Registration) (r : Request) (s : ExecState) :
    ExecState × HOutcome :=
  match findMatch routes r.path with
  | some reg =>
      reg.handler.serveHTTP { r with currentRoute := some ⟨some reg.pattern⟩ } s
  | none =>
      (s.setRw ((s.rw.writeHeader 404)), HOutcome.ok)

/-- Model of `handlers.RecoveryHandler` (gorilla): run the inner handler; a panic is
recovered, logged with its stack, and turned into a 500 response instead of
propagating.  The `recoveryEnter` trace event marks that the wrapper frame
is entered before the inner handler runs. -/
def recoveryHandler (inner : Request → ExecState → ExecState × HOutcome)
    (r : Request) (s : ExecState) : ExecState × HOutcome :=
  match inner r (s.addTrace [Event.recoveryEnter]) with
  | (s2, HOutcome.ok) => (s2, HOutcome.ok)
  | (s2, HOutcome.panicked m) =>
      (((s2.addLog LogLevel.errorLog m).addTrace [Event.recovered m]).setRw
        (s2.rw.writeHeader 500), HOutcome.ok)

/-- The lifecycle coordinator `Handler` (src/ok.go lines 45-53), with the
fields the claims depend on.  The graceful-shutdown duration is in
nanoseconds.  The context, logger and `*http.Server` internals are not
modelled beyond the fields consumed here. -/
structure Handler where
  gracefulShutdownDuration : Nat
  okHandler : HttpHandler
  router : List Registration
  serverAddr : String
  metricsListen : String
deriving DecidableEq, Repr

/-- Model of `NewHandlerWithContext` (src/ok.go lines 61-75): default grace duration
`2 * time.Second`, a shared `OkHandler` instance, a fresh empty router. -/
def NewHandlerWithContext (listen metricsListen : String) : Handler :=
  { gracefulShutdownDuration := 2 * timeSecond
    okHandler := HttpHandler.okH
    router := []
    serverAddr := listen
    metricsListen := metricsListen }

/-- The `NewHandler` constructor delegates to `NewHandlerWithContext` with a signal context. -/
def NewHandler (listen metricsListen : String) : Handler :=
  NewHandlerWithContext listen metricsListen

/-- Model of `SetGracefulShutdownDuration` (src/ok.go lines 79-81). -/
def Handler.SetGracefulShutdownDuration (h : Handler) (duration : Nat) : Handler :=
  { h with gracefulShutdownDuration := duration }

/-- Model of `Handle` (src/ok.go lines 85-87): register the handler wrapped in a
`Timer` at an exact path; return the updated state together with the
`*mux.Route` handle the router returns. -/
def Handler.Handle (h : Handler) (path : String) (hd : HttpHandler) :
    Handler × Registration :=
  let reg : Registration := ⟨path, MatchMode.exact, HttpHandler.timer hd⟩
  ({ h with router := h.router ++ [reg] }, reg)

/-- Model of `HandlePrefix` (src/ok.go lines 91-93): register the handler wrapped in a
`Timer` under a path-prefix matcher; return the route handle. -/
def Handler.HandlePrefix (h : Handler) (pat : String) (hd : HttpHandler) :
    Handler × Registration :=
  let reg : Registration := ⟨pat, MatchMode.pathStart, HttpHandler.timer hd⟩
  ({ h with router := h.router ++ [reg] }, reg)

/-- Model of `http.HandlerFunc`: adapt a bare function (modelled by its trace steps and
panic behaviour) into a handler. -/
def httpHandlerFunc (steps : List Nat) (panics : Option String) : HttpHandler :=
  HttpHandler.user steps panics

/-- Model of `HandleFunc` (src/ok.go lines 97-99): adapt and delegate to `Handle`. -/
def Handler.HandleFunc (h : Handler) (path : String) (steps : List Nat)
    (panics : Option String) : Handler × Registration :=
  h.Handle path (httpHandlerFunc steps panics)

/-- Model of `HandleFuncPrefix` (src/ok.go lines 103-105): adapt and delegate to
`HandlePrefix`. -/
def Handler.HandleFuncPrefix (h : Handler) (pat : String) (steps : List Nat)
    (panics : Option String) : Handler × Registration :=
  h.HandlePrefix pat (httpHandlerFunc steps panics)

/-- Model of `AddOkHandler` (src/ok.go lines 108-110): register the shared `OkHandler`
instance directly on the router, with no `Timer` wrapping. -/
def Handler.AddOkHandler (h : Handler) (path : String) : Handler :=
  { h with router := h.router ++ [⟨path, MatchMode.exact, h.okHandler⟩] }

/-- Model of `registerDefaultRoutes` (src/ok.go lines 112-116). -/
def Handler.registerDefaultRoutes (h : Handler) : Handler :=
  { h with router := h.router ++
      [⟨"/_healthz", MatchMode.exact, h.okHandler⟩,
       ⟨"/_health", MatchMode.exact, h.okHandler⟩,
       ⟨"/up", MatchMode.exact, h.okHandler⟩] }

/-- Model of `wrapHandlers` (src/ok.go lines 118-125): apply the panic-recovery
wrapper outermost around a handler. -/
def wrapHandlers (inner : Request → ExecState → ExecState × HOutcome) :
    Request → ExecState → ExecState × HOutcome :=
  recoveryHandler inner

/-- Per-request behaviour of the primary server once `Serve` has started
(src/ok.go lines 129-130): `registerDefaultRoutes()` followed by
`server.Handler = wrapHandlers(logger, router)`. -/
def Handler.serverHandler (h : Handler) : Request → ExecState → ExecState × HOutcome :=
  wrapHandlers (muxServeHTTP h.registerDefaultRoutes.router)

/-- Error policy of the metrics goroutine (src/ok.go lines 139-141):
`if err := srv.ListenAndServe(); err != nil { logger.Fatalf(...) }` — any
non-nil error is fatal, with no exemption for `http.ErrServerClosed`.
`true` means `Fatalf` runs, terminating the process. -/
def metricsListenFatal : Option GoError → Bool
  | none => false
  | some _ => true

/-- Error policy of the primary goroutine (src/ok.go lines 145-147):
`if err != nil && err != http.ErrServerClosed { logger.Fatalf(...) }`. -/
def primaryListenFatal : Option GoError → Bool
  | none => false
  | some GoError.errServerClosed => false
  | some _ => true

/-- Modelled from the Go standard library semantics of
`http.Server.Shutdown(ctx)` with `ctx = context.WithTimeout(_, deadline)`:
if all in-flight requests drain (at `drainTime` nanoseconds after the
shutdown began) before the context deadline, `Shutdown` returns nil at
that moment; otherwise it gives up when the context fires, returning the
context `DeadlineExceeded` error and leaving the remaining connections
open.  Result: the returned error and the time at which the call returns. -/
def serverShutdown (drainTime deadline : Nat) : Option GoError × Nat :=
  if drainTime ≤ deadline then (none, drainTime)
  else (some GoError.deadlineExceeded, deadline)

/-- How `Serve` ends: a normal return at a given time after the cancellation
signal, or process termination through `logger.Fatalf`. -/
inductive ServeEnd where
  | returned (t : Nat)
  | fatalExit (msg : String)
deriving DecidableEq, Repr

/-- The tail of `Serve` for a given grace deadline (src/ok.go lines 155-165):
`shutdownCtx, cancel := context.WithTimeout(Background, deadline)` with
`cancel` deferred; `server.Shutdown(shutdownCtx)` — a non-nil error is fatal
via `Fatalf`; then `<-shutdownCtx.Done()`.  Because `cancel` only runs after
`Serve` returns, `Done` fires at the deadline, so the final wait blocks
until `max` of the shutdown-return time and the deadline. -/
def shutdownPhase (deadline drainTime : Nat) : ServeEnd :=
  match serverShutdown drainTime deadline with
  | (some e, _) => ServeEnd.fatalExit ("failed to shutdown http server: " ++ e.message)
  | (none, t) => ServeEnd.returned (max t deadline)

/-- Model of `Serve` after `<-ctx.Done()`: the shutdown phase runs with the
configured graceful-shutdown duration of the coordinator as the deadline. -/
def Handler.serveShutdownPhase (h : Handler) (drainTime : Nat) : ServeEnd :=
  shutdownPhase h.gracefulShutdownDuration drainTime

/-! ## Helper lemmas -/

/-- Adding trace events does not change the histogram. -/
@[simp]
theorem ExecState.histogram_addTrace (s : ExecState) (es : List Event) :
    (s.addTrace es).histogram = s.histogram := rfl

/-- The outcome of a handler depends only on the handler and the request,
never on the execution state. -/
theorem serveHTTP_outcome_indep (h : HttpHandler) (r : Request) :
    ∀ s s' : ExecState, (h.serveHTTP r s).2 = (h.serveHTTP r s').2 := by
  induction h with
  | okH =>
      intro s s'
      simp only [HttpHandler.serveHTTP]
      rcases hf : fprintfOk s.rw with ⟨rw1, e1⟩
      rcases hg : fprintfOk s'.rw with ⟨rw2, e2⟩
      cases e1 <;> cases e2 <;> rfl
  | timer inner ih =>
      intro s s'
      cases hc : r.currentRoute with
      | none => simp [HttpHandler.serveHTTP, hc]
      | some route =>
          simp only [HttpHandler.serveHTTP, hc]
          cases h1 : inner.serveHTTP r (s.addTrace [Event.timerStart (pathLabel route)]) with
          | mk s2 o2 =>
            cases h2 : inner.serveHTTP r (s'.addTrace [Event.timerStart (pathLabel route)]) with
            | mk s3 o3 =>
              have hi := ih (s.addTrace [Event.timerStart (pathLabel route)])
                (s'.addTrace [Event.timerStart (pathLabel route)])
              rw [h1, h2] at hi
              change o2 = o3 at hi
              subst hi
              cases o2 <;> rfl
  | user steps panics =>
      intro s s'
      cases panics <;> rfl

/-- A handler run that ends in a panic leaves the histogram untouched: every
observation in this code happens only after a normal return. -/
theorem serveHTTP_panicked_histogram (h : HttpHandler) (r : Request) :
    ∀ (s : ExecState) (m : String), (h.serveHTTP r s).2 = HOutcome.panicked m →
      (h.serveHTTP r s).1.histogram = s.histogram := by
  induction h with
  | okH =>
      intro s m hm
      simp only [HttpHandler.serveHTTP] at hm
      rcases hf : fprintfOk s.rw with ⟨rw1, e1⟩
      rw [hf] at hm
      cases e1 <;> simp at hm
  | timer inner ih =>
      intro s m hm
      cases hc : r.currentRoute with
      | none => simp [HttpHandler.serveHTTP, hc]
      | some route =>
          simp only [HttpHandler.serveHTTP, hc] at hm ⊢
          cases h1 : inner.serveHTTP r (s.addTrace [Event.timerStart (pathLabel route)]) with
          | mk s2 o2 =>
            rw [h1] at hm
            have ihs := ih (s.addTrace [Event.timerStart (pathLabel route)]) m
            rw [h1] at ihs
            cases o2 with
            | ok => exact HOutcome.noConfusion hm
            | panicked m2 => exact ihs hm
  | user steps panics =>
      intro s m hm
      cases panics <;> simp [HttpHandler.serveHTTP, ExecState.addTrace] at hm ⊢

/-! ## Claims -/

/-- C2 counterexample: the metrics goroutine treats the expected
`http.ErrServerClosed` condition as fatal as well — `Fatalf` runs on any
non-nil error from the metrics listener, contradicting the claim that the
server-closed condition alone does not terminate the process for either
listener. -/
theorem metrics_server_closed_is_fatal :
    metricsListenFatal (some GoError.errServerClosed) = true := rfl

/-- C2 (amended): for the primary listener any listen/serve error other than
`http.ErrServerClosed` is fatal and `ErrServerClosed` alone is not; for the
metrics listener every non-nil error — `ErrServerClosed` included — is
fatal. -/
theorem listen_error_fatality :
    ∀ res : Option GoError,
      (primaryListenFatal res = true ↔ res ≠ none ∧ res ≠ some GoError.errServerClosed) ∧
      (metricsListenFatal res = true ↔ res ≠ none) := by
  intro res
  rcases res with _ | e
  · simp [primaryListenFatal, metricsListenFatal]
  · cases e <;> simp [primaryListenFatal, metricsListenFatal]

/-- C2 witness: a bind failure on the primary listener is fatal. -/
theorem listen_error_fatality_witness :
    primaryListenFatal (some (GoError.other "bind: address already in use")) = true :=
  (listen_error_fatality (some (GoError.other "bind: address already in use"))).1.mpr
    (by simp)

/-- C3 counterexample: with the default 2-second grace deadline and in-flight
requests still draining at 3 seconds, the shutdown call returns the deadline
error and `Serve` terminates the process via `Fatalf` instead of reaching the
Stopped state. -/
theorem deadline_expiry_is_fatal :
    (NewHandlerWithContext "addr" "maddr").serveShutdownPhase (3 * timeSecond)
      = ServeEnd.fatalExit "failed to shutdown http server: context deadline exceeded" := by
  decide

/-- C3 (amended): `Serve` reaches the Stopped state (returns) exactly when
all in-flight requests drain within the grace deadline; when the deadline
expires with requests still in flight, the shutdown call returns a
deadline-exceeded error, which is treated as fatal and terminates the
process. -/
theorem shutdown_phase_behaviour :
    ∀ (h : Handler) (drainTime : Nat),
      (drainTime ≤ h.gracefulShutdownDuration →
        h.serveShutdownPhase drainTime = ServeEnd.returned h.gracefulShutdownDuration) ∧
      (h.gracefulShutdownDuration < drainTime →
        h.serveShutdownPhase drainTime
          = ServeEnd.fatalExit "failed to shutdown http server: context deadline exceeded") := by
  intro h d
  constructor
  · intro hle
    simp only [Handler.serveShutdownPhase, shutdownPhase, serverShutdown, if_pos hle]
    rw [Nat.max_eq_right hle]
  · intro hlt
    have hnot : ¬ d ≤ h.gracefulShutdownDuration := Nat.not_le.mpr hlt
    simp only [Handler.serveShutdownPhase, shutdownPhase, serverShutdown, if_neg hnot]
    rfl

/-- C3 amended-claim witness: a drain that finishes within one second of a
2-second deadline lets `Serve` return. -/
theorem shutdown_phase_behaviour_witness :
    (NewHandlerWithContext "a" "m").serveShutdownPhase timeSecond
      = ServeEnd.returned (2 * timeSecond) :=
  (shutdown_phase_behaviour (NewHandlerWithContext "a" "m") timeSecond).1 (by decide)

/-- C4: whenever `Serve` returns after the cancellation signal, at least the
full configured graceful-shutdown duration has elapsed — the final wait is on
the timeout context, whose cancellation is deferred until after that wait,
so `Done` fires no earlier than the deadline even when draining is
immediate. -/
theorem serve_waits_full_grace :
    ∀ (h : Handler) (drainTime t : Nat),
      h.serveShutdownPhase drainTime = ServeEnd.returned t →
      h.gracefulShutdownDuration ≤ t := by
  intro h d t ht
  simp only [Handler.serveShutdownPhase, shutdownPhase, serverShutdown] at ht
  by_cases hle : d ≤ h.gracefulShutdownDuration
  · rw [if_pos hle] at ht
    simp only [ServeEnd.returned.injEq] at ht
    exact ht ▸ Nat.le_max_right d h.gracefulShutdownDuration
  · rw [if_neg hle] at ht
    simp at ht

/-- C4 witness: with an immediate drain (0 ns) and the default 2-second
grace duration, `Serve` still returns no earlier than 2 seconds. -/
theorem serve_waits_full_grace_witness :
    (NewHandlerWithContext "a" "m").gracefulShutdownDuration ≤ 2 * timeSecond :=
  serve_waits_full_grace (NewHandlerWithContext "a" "m") 0 (2 * timeSecond) (by decide)

/-- C5: a newly constructed coordinator has graceful-shutdown duration
exactly 2 seconds, and `SetGracefulShutdownDuration d` before `Serve` makes
`d` the effective drain deadline used by the shutdown phase of `Serve`. -/
theorem default_grace_and_override :
    ∀ (listen metricsListen : String) (d drainTime : Nat),
      (NewHandlerWithContext listen metricsListen).gracefulShutdownDuration
          = 2 * timeSecond ∧
      (Handler.SetGracefulShutdownDuration (NewHandlerWithContext listen metricsListen)
          d).gracefulShutdownDuration = d ∧
      Handler.serveShutdownPhase
          (Handler.SetGracefulShutdownDuration (NewHandlerWithContext listen metricsListen) d)
          drainTime = shutdownPhase d drainTime := by
  intro l m d dt
  exact ⟨rfl, rfl, rfl⟩

/-- C5 witness: concrete instance at a 5-second override. -/
theorem default_grace_and_override_witness :
    (Handler.SetGracefulShutdownDuration (NewHandlerWithContext "a" "m")
      (5 * timeSecond)).gracefulShutdownDuration = 5 * timeSecond :=
  (default_grace_and_override "a" "m" (5 * timeSecond) 0).2.1

/-- C1 counterexample: invoking a `Timer`-wrapped handler on a request with
no matched route does not complete without fault — `mux.CurrentRoute` yields
a nil route and the `GetPathTemplate` call on it panics with a nil-pointer
dereference, before the wrapped handler ever runs. -/
theorem timer_nil_route_panics :
    (HttpHandler.timer (HttpHandler.user [] none)).serveHTTP
        { method := "GET", path := "/no-route", currentRoute := none } initState
      = (initState, HOutcome.panicked nilRoutePanicMsg) := rfl

/-- C1 (amended): when a route is matched but its canonical template is not
resolvable, the recorder discards the lookup error, records under the empty
label, and the wrapped handler completes without fault; but on a request
with no matched route at all the recorder panics with a nil-pointer
dereference instead of using a sentinel label. -/
theorem timer_no_template_empty_label :
    ∀ (steps : List Nat) (r : Request) (s : ExecState),
      r.currentRoute = some ⟨none⟩ →
      ((HttpHandler.timer (HttpHandler.user steps none)).serveHTTP r s).2 = HOutcome.ok ∧
      ((HttpHandler.timer (HttpHandler.user steps none)).serveHTTP r s).1.histogram
        = s.histogram ++ [""] ∧
      (∀ (inner : HttpHandler) (r' : Request) (s' : ExecState),
        r'.currentRoute = none →
        (HttpHandler.timer inner).serveHTTP r' s'
          = (s', HOutcome.panicked nilRoutePanicMsg)) := by
  intro steps r s hc
  refine ⟨?_, ?_, ?_⟩
  · simp [HttpHandler.serveHTTP, hc]
  · simp [HttpHandler.serveHTTP, hc, pathLabel, Route.getPathTemplate, ExecState.observe,
      ExecState.addTrace]
  · intro inner r' s' hn
    simp [HttpHandler.serveHTTP, hn]

/-- C1 witness: a request carrying a matched route that has no path template
is recorded under the empty label and completes normally. -/
theorem timer_no_template_empty_label_witness :
    ((HttpHandler.timer (HttpHandler.user [1] none)).serveHTTP
        { method := "GET", path := "/x", currentRoute := some ⟨none⟩ } initState).1.histogram
      = [""] :=
  (timer_no_template_empty_label [1]
    { method := "GET", path := "/x", currentRoute := some ⟨none⟩ } initState rfl).2.1

/-- C6: the health responder writes the fixed body `"ok"` with the implicit
success status 200; a write failure is logged at debug severity only and the
handler returns normally in every case, never propagating the error. -/
theorem okHandler_contract :
    ∀ (r : Request) (s : ExecState),
      (HttpHandler.okH.serveHTTP r s).2 = HOutcome.ok ∧
      (s.rw.failWrite = none →
        (HttpHandler.okH.serveHTTP r s).1 = s.setRw
          { s.rw with status := some (s.rw.status.getD 200), body := s.rw.body ++ "ok" }) ∧
      (∀ e, s.rw.failWrite = some e →
        (HttpHandler.okH.serveHTTP r s).1
          = s.addLog LogLevel.debug ("failed to write ok response: " ++ e)) := by
  intro r s
  rcases hf : s.rw.failWrite with _ | e0
  · refine ⟨?_, ?_, ?_⟩
    · simp [HttpHandler.serveHTTP, fprintfOk, hf]
    · intro _
      simp [HttpHandler.serveHTTP, fprintfOk, hf]
    · intro e he
      simp at he
  · refine ⟨?_, ?_, ?_⟩
    · simp [HttpHandler.serveHTTP, fprintfOk, hf]
    · intro h0
      simp at h0
    · intro e he
      injection he with he2
      subst he2
      simp [HttpHandler.serveHTTP, fprintfOk, hf, ExecState.setRw, ExecState.addLog]

/-- C6 witness: on a fresh healthy connection the health responder produces
body `"ok"` and status 200 and returns normally. -/
theorem okHandler_contract_witness :
    (HttpHandler.okH.serveHTTP { method := "GET", path := "/up", currentRoute := none }
        initState).1
      = initState.setRw { status := some 200, body := "ok", failWrite := none } :=
  (okHandler_contract { method := "GET", path := "/up", currentRoute := none } initState).2.1 rfl

/-- C7: `Handle` and `HandlePrefix` register the handler wrapped in a `Timer`
(latency recorder) on the router and return the route handle the router
produced; `HandleFunc` and `HandleFuncPrefix` adapt the bare function and
delegate to them; `AddOkHandler` registers the shared health-responder
instance without latency wrapping, and the shared instance of a fresh coordinator
is the `OkHandler`. -/
theorem registration_wrapping :
    ∀ (h : Handler) (path pat : String) (hd : HttpHandler) (steps : List Nat)
      (p : Option String),
      h.Handle path hd
        = ({ h with router := h.router ++ [⟨path, MatchMode.exact, HttpHandler.timer hd⟩] },
           ⟨path, MatchMode.exact, HttpHandler.timer hd⟩) ∧
      h.HandlePrefix pat hd
        = ({ h with router := h.router ++ [⟨pat, MatchMode.pathStart, HttpHandler.timer hd⟩] },
           ⟨pat, MatchMode.pathStart, HttpHandler.timer hd⟩) ∧
      h.HandleFunc path steps p = h.Handle path (httpHandlerFunc steps p) ∧
      h.HandleFuncPrefix pat steps p = h.HandlePrefix pat (httpHandlerFunc steps p) ∧
      h.AddOkHandler path
        = { h with router := h.router ++ [⟨path, MatchMode.exact, h.okHandler⟩] } ∧
      (NewHandlerWithContext path pat).okHandler = HttpHandler.okH := by
  intro h path pat hd steps p
  exact ⟨rfl, rfl, rfl, rfl, rfl, rfl⟩

/-- C7 witness: concrete instance on a fresh coordinator. -/
theorem registration_wrapping_witness :
    (NewHandlerWithContext "a" "m").Handle "/x" HttpHandler.okH
      = ({ NewHandlerWithContext "a" "m" with
            router := [⟨"/x", MatchMode.exact, HttpHandler.timer HttpHandler.okH⟩] },
         ⟨"/x", MatchMode.exact, HttpHandler.timer HttpHandler.okH⟩) :=
  (registration_wrapping (NewHandlerWithContext "a" "m") "/x" "/y" HttpHandler.okH []
    none).1

/-- C8: once `Serve` has started, a request matched to a registered
(`Timer`-wrapped) user handler is executed with the panic-recovery wrapper
outermost, then the latency recorder, then the user handler: the trace is
recovery entry, then timer start, then the user steps, then either the
timer observation (normal return) or the recovery of the panic — so both
timing and crash containment span the full user logic. -/
theorem wrapper_ordering :
    ∀ (h : Handler) (r : Request) (s : ExecState) (pat : String) (mode : MatchMode)
      (steps : List Nat) (p : Option String),
      s.trace = [] →
      findMatch h.registerDefaultRoutes.router r.path
        = some ⟨pat, mode, HttpHandler.timer (HttpHandler.user steps p)⟩ →
      (h.serverHandler r s).1.trace
        = Event.recoveryEnter :: Event.timerStart pat :: steps.map Event.userStep
            ++ (match p with
                | none => [Event.timerObserve pat]
                | some m => [Event.recovered m]) := by
  intro h r s pat mode steps p htr hfind
  simp only [Handler.serverHandler, wrapHandlers, recoveryHandler, muxServeHTTP, hfind]
  cases p with
  | none =>
      simp [HttpHandler.serveHTTP, pathLabel, Route.getPathTemplate, ExecState.addTrace,
        ExecState.observe, htr]
  | some m =>
      simp [HttpHandler.serveHTTP, pathLabel, Route.getPathTemplate, ExecState.addTrace,
        ExecState.observe, ExecState.addLog, ExecState.setRw, htr]

/-- C8 witness: a coordinator with one registered route, exercised on a
matching request. -/
theorem wrapper_ordering_witness :
    ((((NewHandlerWithContext "a" "m").Handle "/x" (HttpHandler.user [7] none)).1).serverHandler
        { method := "GET", path := "/x", currentRoute := none } initState).1.trace
      = [Event.recoveryEnter, Event.timerStart "/x", Event.userStep 7,
         Event.timerObserve "/x"] :=
  wrapper_ordering (((NewHandlerWithContext "a" "m").Handle "/x"
      (HttpHandler.user [7] none)).1)
    { method := "GET", path := "/x", currentRoute := none } initState "/x" MatchMode.exact
    [7] none rfl rfl

/-- C9: `Serve` registers the default health paths `/_healthz`, `/_health`
and `/up`, each pointing at the shared health responder, so on a
default-configured coordinator a request to any of them, with any HTTP
method, returns status 200 with body `"ok"`. -/
theorem default_health_routes :
    ∀ (listen metricsListen method p : String),
      p ∈ ["/_healthz", "/_health", "/up"] →
      (NewHandlerWithContext listen metricsListen).registerDefaultRoutes.router
        = [⟨"/_healthz", MatchMode.exact, HttpHandler.okH⟩,
           ⟨"/_health", MatchMode.exact, HttpHandler.okH⟩,
           ⟨"/up", MatchMode.exact, HttpHandler.okH⟩] ∧
      ((NewHandlerWithContext listen metricsListen).serverHandler
          { method := method, path := p, currentRoute := none } initState).1.rw.body = "ok" ∧
      ((NewHandlerWithContext listen metricsListen).serverHandler
          { method := method, path := p, currentRoute := none } initState).1.rw.status
        = some 200 ∧
      ((NewHandlerWithContext listen metricsListen).serverHandler
          { method := method, path := p, currentRoute := none } initState).2
        = HOutcome.ok := by
  intro l m method p hp
  simp only [List.mem_cons, List.mem_singleton, List.not_mem_nil, or_false] at hp
  rcases hp with rfl | rfl | rfl
  · exact ⟨rfl, rfl, rfl, rfl⟩
  · exact ⟨rfl, rfl, rfl, rfl⟩
  · exact ⟨rfl, rfl, rfl, rfl⟩

/-- C9 witness: a PATCH request to `/up` on a fresh coordinator. -/
theorem default_health_routes_witness :
    ((NewHandlerWithContext "a" "m").serverHandler
        { method := "PATCH", path := "/up", currentRoute := none } initState).1.rw.body
      = "ok" :=
  (default_health_routes "a" "m" "PATCH" "/up" (by simp)).2.1

/-- C10: if the delegate wrapped by the latency recorder panics, the
histogram receives no observation for that request — the run leaves the
histogram unchanged — and the panic propagates past the recorder (to be
caught by the outer recovery wrapper), because the duration is observed only
after a normal return of the delegate. -/
theorem timer_panic_no_observation :
    ∀ (inner : HttpHandler) (r : Request) (s : ExecState) (m : String) (route : Route),
      r.currentRoute = some route →
      (inner.serveHTTP r s).2 = HOutcome.panicked m →
      ((HttpHandler.timer inner).serveHTTP r s).1.histogram = s.histogram ∧
      ((HttpHandler.timer inner).serveHTTP r s).2 = HOutcome.panicked m := by
  intro inner r s m route hc hp
  have hout : (inner.serveHTTP r (s.addTrace [Event.timerStart (pathLabel route)])).2
      = HOutcome.panicked m := by
    rw [serveHTTP_outcome_indep inner r (s.addTrace [Event.timerStart (pathLabel route)]) s]
    exact hp
  have hhist := serveHTTP_panicked_histogram inner r
    (s.addTrace [Event.timerStart (pathLabel route)]) m hout
  constructor
  · simp only [HttpHandler.serveHTTP, hc]
    cases h1 : inner.serveHTTP r (s.addTrace [Event.timerStart (pathLabel route)]) with
    | mk s2 o2 =>
      rw [h1] at hout hhist
      cases o2 with
      | ok => exact HOutcome.noConfusion hout
      | panicked m2 => exact hhist
  · simp only [HttpHandler.serveHTTP, hc]
    cases h1 : inner.serveHTTP r (s.addTrace [Event.timerStart (pathLabel route)]) with
    | mk s2 o2 =>
      rw [h1] at hout
      cases o2 with
      | ok => exact HOutcome.noConfusion hout
      | panicked m2 => exact hout

/-- C10 witness: a panicking user handler under the recorder leaves the
(empty) histogram empty. -/
theorem timer_panic_no_observation_witness :
    ((HttpHandler.timer (HttpHandler.user [3] (some "boom"))).serveHTTP
        { method := "GET", path := "/x", currentRoute := some ⟨some "/x"⟩ }
        initState).1.histogram
      = ([] : List String) :=
  (timer_panic_no_observation (HttpHandler.user [3] (some "boom"))
    { method := "GET", path := "/x", currentRoute := some ⟨some "/x"⟩ } initState "boom"
    ⟨some "/x"⟩ rfl rfl).1

end GoHttputils
